import Mathlib

/-!
Verification development for the optimization task orchestrator of
`src/src/core/performance_optimizer.py` (class `PerformanceOptimizer`).

The Python code is shallowly embedded: each definition below mirrors one
function (or a contiguous block) of the source, with the source location
noted in its doc comment.  Machine-level aspects that the claims do not
touch (logging, wall-clock timestamps, `psutil` calls, the GUI) are
abstracted into explicit parameters.
-/

namespace PCOptimizer

/-- A scalar parameter value, as produced by the `key=value` conversion in
`_get_tasks_for_profile` (lines 581-597): `"true"`/`"false"` become booleans,
digit strings become integers, digit strings with one dot become floats
(modelled as rationals), everything else stays a string. -/
inductive ParamValue where
  | pbool (b : Bool)
  | pint (n : Int)
  | pfloat (q : ℚ)
  | pstr (s : String)
deriving DecidableEq, Repr

/-- One entry of `DEFAULT_TASKS_CONFIG` (lines 101-133) after profile
overlaying: the scheduling metadata of a task.  `os := none` models the
absence of the `"os"` key. -/
structure TaskConfig where
  function : String
  priority : Int
  critical : Bool
  timeout : Int
  enabled : Bool
  os : Option String
  params : List (String × ParamValue)
deriving DecidableEq, Repr

/-- Python `str.split(sep)` for a one-character separator, over the
character list (structural, so that proofs can evaluate it): `"".split(sep)`
is `[""]`, like Python's. -/
def pySplitChars (sep : Char) : List Char → List (List Char)
  | [] => [[]]
  | c :: rest =>
      match pySplitChars sep rest with
      | [] => [[c]]
      | h :: t => if c = sep then [] :: h :: t else (c :: h) :: t

/-- Python `str.split(sep)` on strings. -/
def pySplit (sep : Char) (s : String) : List String :=
  (pySplitChars sep s.toList).map List.asString

/-- Python `str.strip()` (whitespace at both ends; the claims only exercise
ASCII whitespace). -/
def pyStrip (s : String) : String :=
  let ws : Char → Bool := fun c => c = ' ' ∨ c = '\t' ∨ c = '\n' ∨ c = '\r'
  (((s.toList.dropWhile ws).reverse.dropWhile ws).reverse).asString

/-- Python `str.lower()` (the claims only exercise ASCII). -/
def lowerStr (s : String) : String :=
  (s.toList.map Char.toLower).asString

/-- Python `int(s)` on an already-stripped string: optional sign followed by
at least one digit; `none` models the `ValueError` (used at lines 578-580). -/
def pyInt (s : String) : Option Int :=
  let digitsVal : List Char → Option Nat := fun cs =>
    if cs ≠ [] ∧ cs.all Char.isDigit then
      some (cs.foldl (fun a c => a * 10 + (c.toNat - 48)) 0)
    else none
  match s.toList with
  | '-' :: rest => (digitsVal rest).map (fun n => -(n : Int))
  | '+' :: rest => (digitsVal rest).map (fun n => (n : Int))
  | cs => (digitsVal cs).map (fun n => (n : Int))

/-- Value of a nonempty all-digit string, for the `v.isdigit()` branch. -/
def digitStringVal (cs : List Char) : Nat :=
  cs.foldl (fun a c => a * 10 + (c.toNat - 48)) 0

/-- `v.isdigit()` for our purposes: nonempty and all characters digits. -/
def isDigits (cs : List Char) : Bool :=
  decide (cs ≠ []) && cs.all Char.isDigit

/-- Split a character list at the first `'.'` (helper for the float branch,
which mirrors `v.replace(".", "", 1).isdigit()` then `float(v)`). -/
def splitAtFirstDot : List Char → List Char × List Char
  | [] => ([], [])
  | c :: cs =>
      if c = '.' then ([], cs)
      else
        let (ip, fp) := splitAtFirstDot cs
        (c :: ip, fp)

/-- `float(v)` for a digit string with at most one dot, as a rational. -/
def floatVal (cs : List Char) : ℚ :=
  let (ip, fp) := splitAtFirstDot cs
  (digitStringVal (ip ++ fp) : ℚ) / (10 : ℚ) ^ fp.length

/-- The basic type conversion applied to an override parameter value
(`_get_tasks_for_profile`, lines 586-596). -/
def parseParamValue (v : String) : ParamValue :=
  if lowerStr v = "true" then .pbool true
  else if lowerStr v = "false" then .pbool false
  else if isDigits v.toList then .pint (digitStringVal v.toList)
  else if isDigits ((v.toList.filter (· ≠ '.')) ) ∧
          (v.toList.count '.') ≤ 1 ∧ v.toList.any (· = '.') then
    .pfloat (floatVal v.toList)
  else .pstr v

/-- Rejoin the tail of a `split("=", 1)` (helper for `parseParams`). -/
def joinEq : List String → String
  | [] => ""
  | [x] => x
  | x :: xs => x ++ "=" ++ joinEq xs

/-- The `key=value` parameter parsing of `parts[3:]`
(`_get_tasks_for_profile`, lines 581-597): `kv.split("=", 1)` keeps any
later `=` inside the value.  Python builds a dict; we keep the association
list in order (no claim depends on duplicate keys). -/
def parseParams (kvs : List String) : List (String × ParamValue) :=
  kvs.filterMap fun kv =>
    match pySplit '=' kv with
    | [] => none
    | [_] => none
    | k :: rest => some (pyStrip k, parseParamValue (joinEq rest))

/-- The body of the `try` block of `_get_tasks_for_profile` (lines 573-606)
applied to the already split-and-stripped override parts.  Mutations happen
in order (`enabled`, `priority`, `timeout`, `params`); an `int()` conversion
failure aborts the remaining assignments and the `except` handler resets
only `enabled` to the registry default (line 604). -/
def applyParts (dflt : TaskConfig) (parts : List String) : TaskConfig :=
  let c1 : TaskConfig := { dflt with enabled := lowerStr (parts.headD "") = "true" }
  if parts.length ≤ 1 then c1
  else
    match pyInt (parts.getD 1 "") with
    | none => { c1 with enabled := dflt.enabled }
    | some pr =>
      let c2 : TaskConfig := { c1 with priority := pr }
      if parts.length ≤ 2 then c2
      else
        match pyInt (parts.getD 2 "") with
        | none => { c2 with enabled := dflt.enabled }
        | some tm =>
          let c3 : TaskConfig := { c2 with timeout := tm }
          if parts.length ≤ 3 then c3
          else { c3 with params := parseParams (parts.drop 3) }

/-- Apply one profile override string to a registry default
(`_get_tasks_for_profile`, lines 575-606):
`parts = [p.strip() for p in profile_setting.split(";")]` then `applyParts`. -/
def applyOverride (dflt : TaskConfig) (s : String) : TaskConfig :=
  applyParts dflt ((pySplit ';' s).map pyStrip)

/-- A resolved task: the (possibly overridden) config plus the `"name"` key
added at lines 616/638. -/
structure Task extends TaskConfig where
  name : String
deriving DecidableEq, Repr

/-- Resolution of one registry entry under a profile (lines 565-625 when a
profile section exists; the `overrides` function models
`defined_tasks.get(task_name.lower())`).  Returns `none` when the task is
disabled, OS-gated away, or its action is not in the implemented-task map
(lines 611-621). -/
def resolveEntry (overrides : String → Option String) (currentOS : String)
    (implemented : List String) : String × TaskConfig → Option Task
  | (taskName, dflt) =>
    let cfg : TaskConfig :=
      match overrides (lowerStr taskName) with
      | some s => applyOverride dflt s
      | none => { dflt with enabled := dflt.enabled }
    let osMatch : Bool :=
      match cfg.os with
      | none => true
      | some o => o = currentOS
    if cfg.enabled && osMatch && implemented.contains cfg.function then
      some { cfg with name := taskName }
    else none

/-- The unsorted `tasks_to_run` list (lines 557-647): registry entries in
insertion order, each resolved against the profile section when one exists.
The fallback branch (lines 627-647) performs the same filtering with no
overrides applied.  The structural re-validation at lines 650-657 checks
keys that every entry of this model carries by construction, so it is the
identity here. -/
def tasksToRun (registry : List (String × TaskConfig))
    (profileSection : Option (String → Option String))
    (currentOS : String) (implemented : List String) : List Task :=
  match profileSection with
  | some ov => registry.filterMap (resolveEntry ov currentOS implemented)
  | none => registry.filterMap (resolveEntry (fun _ => none) currentOS implemented)

/-- The sort key relation of line 659: `sorted(valid_tasks, key=lambda x: x["priority"])`. -/
def taskLe (a b : Task) : Prop := a.priority ≤ b.priority

instance : DecidableRel taskLe := fun a b =>
  inferInstanceAs (Decidable (a.priority ≤ b.priority))

instance : IsTotal Task taskLe := ⟨fun a b => le_total a.priority b.priority⟩

instance : IsTrans Task taskLe := ⟨fun _ _ _ h1 h2 => le_trans h1 h2⟩

/-- Python's `sorted` is a stable sort; a stable sort by one key is uniquely
determined, so insertion sort is an exact model of line 659. -/
def sortByPriority (l : List Task) : List Task := List.insertionSort taskLe l

/-- `_get_tasks_for_profile` (lines 533-659), with the config access
abstracted into the `profileSection` lookup. -/
def getTasksForProfile (registry : List (String × TaskConfig))
    (profileSection : Option (String → Option String))
    (currentOS : String) (implemented : List String) : List Task :=
  sortByPriority (tasksToRun registry profileSection currentOS implemented)

/-- `DEFAULT_TASKS_CONFIG` (lines 101-133), in source insertion order. -/
def defaultTasksConfig : List (String × TaskConfig) :=
  [("memory_optimization",
    { function := "adjust_memory_usage", priority := 1, critical := true,
      timeout := 300, enabled := true, os := none, params := [] }),
   ("temp_cleanup",
    { function := "clean_temp_files", priority := 2, critical := false,
      timeout := 600, enabled := true, os := none, params := [] }),
   ("disk_defrag",
    { function := "defragment_disk", priority := 3, critical := false,
      timeout := 3600, enabled := true, os := some "Windows", params := [] }),
   ("windows_theme_perf",
    { function := "adjust_windows_theme_performance", priority := 4,
      critical := false, timeout := 60, enabled := true, os := some "Windows",
      params := [("optimize_for_performance", .pbool true)] })]

/-- The keys of `_map_task_functions` (lines 183-191): the implemented actions. -/
def implementedTasks : List String :=
  ["adjust_memory_usage", "clean_temp_files", "defragment_disk",
   "adjust_windows_theme_performance"]

/-- One of the result dicts flowing out of `_execute_tasks` / the wrapper.
Keys that a given code path may omit are `Option` (the wrapper-produced
dicts, lines 753-812, carry no `"critical"` key; an action's own dict may
omit `"error"`, `"details"`, `"critical"`, `"warning"`). `name` and
`success` are present on every dict the loop appends. -/
structure ResultDict where
  name : String
  success : Bool
  error : Option String
  details : Option String
  critical : Option Bool
  warning : Option String
  duration_seconds : Option ℚ
deriving DecidableEq, Repr

/-- A result map returned by an action that does contain a `"success"` key
(the `isinstance(task_result, dict) and "success" in task_result` branch,
line 758). -/
structure PartialDict where
  success : Bool
  error : Option String
  details : Option String
  critical : Option Bool
  warning : Option String
deriving DecidableEq, Repr

/-- The dynamic type of an action's return value, as discriminated at lines
758-772.  A dict lacking a `"success"` key falls into the `otherRet` branch
(Python's final `else`), with `typeName` standing for `type(task_result)`. -/
inductive ActionReturn where
  | dictRet (d : PartialDict)
  | boolRet (b : Bool)
  | otherRet (typeName : String)
deriving DecidableEq, Repr

/-- What happens when the wrapper calls `task_func(**params)` (line 755):
a returned value, one of the optimizer's own exception types (line 781-789,
carrying the class name and message), or any other exception (line 801). -/
inductive ActionOutcome where
  | ret (r : ActionReturn)
  | raiseDomain (className msg : String)
  | raiseOther (msg : String)
deriving DecidableEq, Repr

/-- `_optimize_task_wrapper` (lines 736-814).  `duration` stands for the
measured `time.monotonic()` difference; the `:.2f`-formatted elapsed-seconds
figure inside the unexpected-error message is elided (pure time
formatting), keeping the task name and the exception message. -/
def optimizeTaskWrapper (taskName : String) (outcome : ActionOutcome)
    (duration : ℚ) : ResultDict :=
  match outcome with
  | .ret (.dictRet d) =>
      { name := taskName, success := d.success, error := d.error,
        details := d.details, critical := d.critical, warning := d.warning,
        duration_seconds := some duration }
  | .ret (.boolRet b) =>
      { name := taskName, success := b, error := none,
        details := some "Task returned boolean.", critical := none,
        warning := none, duration_seconds := some duration }
  | .ret (.otherRet typeName) =>
      { name := taskName, success := true, error := none,
        details := some ("Task returned non-standard type: " ++ typeName),
        critical := none, warning := none, duration_seconds := some duration }
  | .raiseDomain className msg =>
      { name := taskName, success := false, error := some className,
        details := some msg, critical := none,
        warning := none, duration_seconds := some duration }
  | .raiseOther msg =>
      { name := taskName, success := false, error := some "unexpected",
        details := some ("Task '" ++ taskName ++
          "' encountered an unexpected error: " ++ msg),
        critical := none, warning := none, duration_seconds := some duration }

/-- Fate of one submitted future as observed by the gather loop of
`_execute_tasks` (lines 693-732): the wrapper completed with some action
outcome, `future.result(timeout=...)` raised `FuturesTimeoutError`, or it
raised some other exception (the final `except` at line 721). -/
inductive ExecOutcome where
  | completed (outcome : ActionOutcome) (duration : ℚ)
  | timedOut
  | gatherError (msg : String)
deriving DecidableEq, Repr

/-- `_execute_tasks` (lines 661-734).  Results of completed wrappers are
appended as returned; timeout and gather-error results are built inline with
the descriptor's `critical` flag (lines 710-732).  `as_completed` yields
results in a nondeterministic arrival order; the model fixes submission
order, which the Report Aggregator treats as meaningless (its counts are
permutation-invariant). -/
def executeTasks (tasks : List (Task × ExecOutcome)) : List ResultDict :=
  tasks.map fun te =>
    match te.2 with
    | .completed outcome d => optimizeTaskWrapper te.1.name outcome d
    | .timedOut =>
        { name := te.1.name, success := false, error := some "timeout",
          details := some ("Task '" ++ te.1.name ++ "' timed out after " ++
            toString te.1.timeout ++ " seconds."),
          critical := some te.1.critical, warning := none,
          duration_seconds := none }
    | .gatherError msg =>
        { name := te.1.name, success := false, error := some msg,
          details := some ("Task '" ++ te.1.name ++
            "' failed with an unexpected error: " ++ msg),
          critical := some te.1.critical, warning := none,
          duration_seconds := none }

/-- One entry of `report["failed_tasks_details"]` (lines 850-858). -/
structure FailureDetail where
  name : String
  error : String
  details : String
  critical : Bool
  duration_seconds : Option ℚ
deriving DecidableEq, Repr

/-- The report dict of `_generate_optimization_report` (lines 831-840).
`timestamp` and the orchestrator-added `duration_seconds` are wall-clock
values outside the model. -/
structure Report where
  success : Bool
  message : String
  tasks_completed : Nat
  tasks_failed : Nat
  failed_tasks_details : List FailureDetail
  warnings : List String
  task_results : List ResultDict
deriving DecidableEq, Repr

/-- The `TaskExecutionError` raised at lines 877-881: `task_name` is the
comma-joined critical names, and the payload carries the full
`failed_tasks_details` list under the `"critical_failures"` key. -/
structure TaskExecError where
  task_name : String
  reason : String
  critical_failures : List FailureDetail
deriving DecidableEq, Repr

/-- The failure-detail dict built at lines 850-858 from one failed result. -/
def failureDetailOf (r : ResultDict) : FailureDetail :=
  { name := r.name, error := r.error.getD "Unknown error",
    details := r.details.getD "", critical := r.critical.getD false,
    duration_seconds := r.duration_seconds }

/-- One iteration of the aggregation loop (lines 843-864), acting on the
report-so-far and the accumulated critical names. -/
def aggregateStep (acc : Report × List String) (r : ResultDict) :
    Report × List String :=
  let rep := acc.1
  let crit := acc.2
  let next : Report × List String :=
    if r.success then
      ({ rep with tasks_completed := rep.tasks_completed + 1 }, crit)
    else
      let fd := failureDetailOf r
      ({ rep with
          success := false
          tasks_failed := rep.tasks_failed + 1
          failed_tasks_details := rep.failed_tasks_details ++ [fd] },
       if fd.critical then crit ++ [r.name] else crit)
  match r.warning with
  | some w =>
      if w ≠ "" then
        ({ next.1 with
           warnings := next.1.warnings ++ ["Task '" ++ r.name ++ "': " ++ w] },
         next.2)
      else next
  | none => next

/-- The initial report dict (lines 831-840). -/
def initReport (results : List ResultDict) : Report :=
  { success := true, message := "Optimization completed.",
    tasks_completed := 0, tasks_failed := 0, failed_tasks_details := [],
    warnings := [], task_results := results }

/-- The report after the aggregation loop (lines 843-864). -/
def aggregatedReport (results : List ResultDict) : Report :=
  (results.foldl aggregateStep (initReport results, [])).1

/-- The critical-failure name list collected by the loop (line 861). -/
def criticalNames (results : List ResultDict) : List String :=
  (results.foldl aggregateStep (initReport results, [])).2

/-- The report after the message fix-up of lines 866-869. -/
def reportWithMessage (results : List ResultDict) : Report :=
  let rep := aggregatedReport results
  if rep.success then rep
  else { rep with message := "Optimization completed with " ++
          toString rep.tasks_failed ++ " failed task(s)." }

/-- `_generate_optimization_report` (lines 816-883): aggregate, fix the
message, then raise `TaskExecutionError` when any critical failure was
collected (lines 872-881), else return the report. -/
def generateOptimizationReport (results : List ResultDict) :
    Except TaskExecError Report :=
  let crit := criticalNames results
  if crit.isEmpty then .ok (reportWithMessage results)
  else .error
    { task_name := String.intercalate ", " crit,
      reason := "Critical optimization tasks failed",
      critical_failures := (reportWithMessage results).failed_tasks_details }

/-- The `Performance.max_threads` config read of `_get_thread_count`
(lines 515-517): a parseable value, an absent key (fallback), or a
malformed value making `getint` raise. -/
inductive CfgMaxThreads where
  | set (n : Int)
  | unset
  | malformed
deriving DecidableEq, Repr

/-- `_get_thread_count` (lines 510-531): `max(1, min(config_max_threads,
cpu_count))` with fallback `max(1, cpu_count - 1)`, and `1` when the config
read raises. -/
def getThreadCount (cfg : CfgMaxThreads) (cpuCount : Nat) : Nat :=
  match cfg with
  | .malformed => 1
  | .unset =>
      let configMax : Int := max 1 ((cpuCount : Int) - 1)
      (max 1 (min configMax (cpuCount : Int))).toNat
  | .set c => (max 1 (min c (cpuCount : Int))).toNat

/-- Modelled from the spec (section 4.3): the claimed pool-size formula
`min(configuredMaxThreads, cpuCount, workerCount)`, written from the spec's
words for comparison with `getThreadCount`; nothing in `src/` computes it. -/
def specPoolSize (configuredMaxThreads cpuCount workerCount : Int) : Int :=
  min configuredMaxThreads (min cpuCount workerCount)

/-- The memory-policy configuration (`DEFAULT_MEMORY_CONFIG` keys used by
the tier mapping and thread policy, lines 136-148).  Thresholds are
rationals: the Python floats involved in the claims are exactly
representable. -/
structure MemCfg where
  critical_threshold_gb : ℚ
  warning_threshold_gb : ℚ
  critical_max_threads : Int
  warning_max_threads : Int
  normal_max_threads : Int
deriving DecidableEq, Repr

/-- `DEFAULT_MEMORY_CONFIG` (lines 136-148), restricted to the modelled keys. -/
def defaultMemoryConfig : MemCfg :=
  { critical_threshold_gb := 2, warning_threshold_gb := 4,
    critical_max_threads := 2, warning_max_threads := 4,
    normal_max_threads := 8 }

/-- The tier mapping of `adjust_memory_usage` (lines 923-959):
`available_gb = available_bytes / 1024**3` compared strictly-less-than
against the ascending thresholds.  Python's binary floating point is
modelled by exact rationals. -/
def classifyMemoryState (availableBytes : Nat) (cfg : MemCfg) : String :=
  let available_gb : ℚ := (availableBytes : ℚ) / ((1024 : ℚ) ^ 3)
  if available_gb < cfg.critical_threshold_gb then "critical"
  else if available_gb < cfg.warning_threshold_gb then "warning"
  else "normal"

/-- The per-tier thread policy lookup
`mem_cfg[f"{current_state}_max_threads"]` (line 966). -/
def stateMaxThreads (cfg : MemCfg) (state : String) : Int :=
  if state = "critical" then cfg.critical_max_threads
  else if state = "warning" then cfg.warning_max_threads
  else cfg.normal_max_threads

/-- The value stored in `self._last_run_result`: either the report dict
(line 427) or the error dict of lines 437-441 (whose contents no claim
inspects beyond presence, so only the error string is kept). -/
inductive RunRecord where
  | report (r : Report)
  | errorRec (msg : String)
deriving DecidableEq, Repr

/-- The orchestrator's mutable fields touched by `optimize_system`
(lines 176-178). -/
structure OptState where
  status : String
  lastRunResult : Option RunRecord
  currentTask : Option String
deriving DecidableEq, Repr

/-- The exceptions `optimize_system` can raise (lines 384-448). -/
inductive OptError where
  | optimizationError (msg : String)
  | configurationError (msg : String)
  | taskExecutionError (e : TaskExecError)
deriving DecidableEq, Repr

/-- Everything external that one `optimize_system` run consumes: the task
registry and profile config, the current OS, the implemented-action map,
whether the config object is loaded (`_validate_optimization_ready`,
line 456), and the fate of each task's execution keyed by task name. -/
structure RunEnv where
  registry : List (String × TaskConfig)
  profileSection : Option (String → Option String)
  currentOS : String
  implemented : List String
  configLoaded : Bool
  outcomes : String → ExecOutcome

/-- The early-return report for an empty task list (lines 408-417); its
dict carries no `task_results` key, modelled as the empty list. -/
def emptyRunReport : Report :=
  { success := true, message := "No tasks to execute for the selected profile.",
    tasks_completed := 0, tasks_failed := 0, failed_tasks_details := [],
    warnings := [], task_results := [] }

/-- `optimize_system` (lines 374-450) as a state-passing function.  The
returned triple is (raised error or returned report, final mutable state,
list of task results actually produced by the executor — `[]` exactly when
the run never reaches `_execute_tasks`).  Worker-pool sizing
(`_get_thread_count`) has no observable effect here because the executor
model abstracts parallelism; it is verified separately.  The `finally`
clause (line 450) clears `currentTask` on every path past the initial
status guard. -/
def optimizeSystem (st : OptState) (env : RunEnv) :
    Except OptError Report × OptState × List ResultDict :=
  if st.status = "running" then
    (.error (.optimizationError "Optimization is already running."), st, [])
  else
    let st1 : OptState :=
      { st with status := "running", currentTask := some "initializing" }
    if !env.configLoaded then
      (.error (.configurationError "Configuration is not loaded or invalid."),
       { st1 with
          status := "failed"
          lastRunResult :=
            some (.errorRec "Configuration is not loaded or invalid.")
          currentTask := none }, [])
    else
      let tasks := getTasksForProfile env.registry env.profileSection
        env.currentOS env.implemented
      if tasks.isEmpty then
        (.ok emptyRunReport,
         { st1 with status := "completed", currentTask := none }, [])
      else
        let results := executeTasks (tasks.map (fun t => (t, env.outcomes t.name)))
        match generateOptimizationReport results with
        | .ok report =>
            (.ok report,
             { st1 with
                status := if report.success then "completed" else "failed"
                lastRunResult := some (.report report)
                currentTask := none }, results)
        | .error e =>
            (.error (.taskExecutionError e),
             { st1 with
                status := "failed"
                lastRunResult := some (.errorRec e.task_name)
                currentTask := none }, results)

/-! ### Concrete fixtures used by witnesses and counterexamples -/

/-- The registry entry for `memory_optimization` (lines 102-108). -/
def memoryTaskDefault : TaskConfig :=
  { function := "adjust_memory_usage", priority := 1, critical := true,
    timeout := 300, enabled := true, os := none, params := [] }

/-- The optimizer's state after `__init__` (lines 176-178). -/
def idleState : OptState :=
  { status := "idle", lastRunResult := none, currentTask := none }

/-- A state captured while a run is in flight. -/
def runningState : OptState :=
  { status := "running", lastRunResult := some (.errorRec "previous failure"),
    currentTask := some "temp_cleanup" }

/-- An environment whose profile resolves to no tasks at all. -/
def noTasksEnv : RunEnv :=
  { registry := [], profileSection := none, currentOS := "Linux",
    implemented := implementedTasks, configLoaded := true,
    outcomes := fun _ => .timedOut }

/-- Scenario A execution fates: `memory_optimization`'s action raises a
generic exception, every other action returns `True`. -/
def scenarioAOutcomes : String → ExecOutcome := fun n =>
  if n = "memory_optimization" then
    .completed (.raiseOther "Simulated memory failure") 0
  else .completed (.ret (.boolRet true)) 0

/-- Scenario A environment: default registry and profile on a non-Windows
OS, so exactly `memory_optimization` (critical) and `temp_cleanup`
(non-critical) resolve. -/
def scenarioAEnv : RunEnv :=
  { registry := defaultTasksConfig, profileSection := none,
    currentOS := "Linux", implemented := implementedTasks,
    configLoaded := true, outcomes := scenarioAOutcomes }

/-- Success flag and failure count of a returned report; `none` when the
run raised instead of returning. -/
def runSummary (e : Except OptError Report) : Option (Bool × Nat) :=
  match e with
  | .ok r => some (r.success, r.tasks_failed)
  | .error _ => none

/-- A failed, non-critical executor result (Scenario B's `temp_cleanup`). -/
def nonCriticalFailure : ResultDict :=
  { name := "temp_cleanup", success := false, error := some "unexpected",
    details := some "Simulated cleanup failure", critical := some false,
    warning := none, duration_seconds := some 0 }

/-! ### C2 — override parsing on type-conversion failure -/

/-- C2 counterexample: for the override string "true;abc;60" on the
`memory_optimization` registry defaults, the resolver leaves `timeout` at
its registry default 300 — the claimed `timeoutSeconds = 60` does not hold. -/
theorem overrideParseFailure_counterexample :
    (applyOverride memoryTaskDefault "true;abc;60").timeout = 300 ∧
    (300 : Int) ≠ 60 := by
  exact ⟨by decide, by decide⟩

/-- C2 (amended): an `int()` conversion failure on a positional override
field aborts parsing there: the failing field and every later field keep
the registry defaults, and the handler additionally resets `enabled` to the
registry default; fields parsed before the failing one (other than
`enabled`) keep their override values.  With three fields: failure on
`priority` reverts the whole config to the registry default, and failure on
`timeout` keeps only the parsed `priority` override. -/
theorem overrideParseFailure_reverts_rest (dflt : TaskConfig) (a b c : String) :
    (pyInt b = none → applyParts dflt [a, b, c] = dflt) ∧
    (∀ pr : Int, pyInt b = some pr → pyInt c = none →
      applyParts dflt [a, b, c] = { dflt with priority := pr }) := by
  constructor
  · intro hb
    cases dflt
    simp [applyParts, hb]
  · intro pr hb hc
    cases dflt
    simp [applyParts, hb, hc]

/-- C2 witness: the amended behaviour at the Scenario D string (split and
stripped to `["true", "abc", "60"]`) and at a timeout-failure variant. -/
theorem overrideParseFailure_reverts_rest_witness :
    applyParts memoryTaskDefault ["true", "abc", "60"] = memoryTaskDefault ∧
    applyParts memoryTaskDefault ["false", "2", "xyz"] =
      { memoryTaskDefault with priority := 2 } :=
  ⟨(overrideParseFailure_reverts_rest memoryTaskDefault "true" "abc" "60").1
      (by decide),
   (overrideParseFailure_reverts_rest memoryTaskDefault "false" "2" "xyz").2 2
      (by decide) (by decide)⟩

/-! ### C3 — per-task exception isolation -/

/-- C3 counterexample: a generic exception raised by an action is recorded
with error kind "unexpected", not the claimed "exception". -/
theorem taskException_errorKind_counterexample :
    (optimizeTaskWrapper "memory_optimization" (.raiseOther "boom") 0).error =
      some "unexpected" ∧
    some "unexpected" ≠ some "exception" := by
  exact ⟨rfl, by decide⟩

/-- C3 (amended): any exception raised by an action is caught inside the
task's wrapper and turned into a result with `success = false` and the
exception message captured in `details`; the recorded error kind is the
exception class name for the optimizer's domain exceptions and
"unexpected" (not "exception") for any other exception.  The wrapper is
total, so no exception escapes the executor loop: every submitted task
still yields its own result, in particular the executor reports one result
per task, carrying that task's name. -/
theorem taskException_isolated (name className msg : String) (d : ℚ)
    (ts : List (Task × ExecOutcome)) :
    (optimizeTaskWrapper name (.raiseDomain className msg) d).success = false ∧
    (optimizeTaskWrapper name (.raiseDomain className msg) d).error =
      some className ∧
    (optimizeTaskWrapper name (.raiseDomain className msg) d).details =
      some msg ∧
    (optimizeTaskWrapper name (.raiseOther msg) d).success = false ∧
    (optimizeTaskWrapper name (.raiseOther msg) d).error = some "unexpected" ∧
    (optimizeTaskWrapper name (.raiseOther msg) d).details =
      some ("Task '" ++ name ++ "' encountered an unexpected error: " ++ msg) ∧
    (executeTasks ts).map ResultDict.name = ts.map (fun te => te.1.name) := by
  refine ⟨rfl, rfl, rfl, rfl, rfl, rfl, ?_⟩
  induction ts with
  | nil => rfl
  | cons te ts ih =>
    obtain ⟨t, eo⟩ := te
    cases eo with
    | completed oc dd =>
      cases oc with
      | ret r => cases r <;> simpa [executeTasks, optimizeTaskWrapper] using ih
      | raiseDomain c m => simpa [executeTasks, optimizeTaskWrapper] using ih
      | raiseOther m => simpa [executeTasks, optimizeTaskWrapper] using ih
    | timedOut => simpa [executeTasks] using ih
    | gatherError m => simpa [executeTasks] using ih

/-! ### C8 — normalization of action return values -/

/-- C8 counterexample: a return value that is neither a bool nor a
success-keyed map is normalized with NO error kind at all — the result dict
carries no "error" key, so it is not "unexpected-return". -/
theorem unexpectedReturn_no_errorKind_counterexample :
    (optimizeTaskWrapper "memory_optimization"
      (.ret (.otherRet "<class NoneType>")) 0).error = none ∧
    (none : Option String) ≠ some "unexpected-return" := by
  exact ⟨rfl, by decide⟩

/-- C8 (amended): a bare boolean return yields that boolean as `success`; a
map containing a `success` key is used as the result; any other return is
normalized to `success = true` with details recording the non-standard
type and a warning logged — but no error kind is recorded on the result. -/
theorem unexpectedReturn_normalization (name typeName : String) (b : Bool)
    (d : ℚ) (pd : PartialDict) :
    (optimizeTaskWrapper name (.ret (.otherRet typeName)) d).success = true ∧
    (optimizeTaskWrapper name (.ret (.otherRet typeName)) d).error = none ∧
    (optimizeTaskWrapper name (.ret (.otherRet typeName)) d).details =
      some ("Task returned non-standard type: " ++ typeName) ∧
    (optimizeTaskWrapper name (.ret (.boolRet b)) d).success = b ∧
    (optimizeTaskWrapper name (.ret (.boolRet b)) d).error = none ∧
    (optimizeTaskWrapper name (.ret (.dictRet pd)) d).success = pd.success ∧
    (optimizeTaskWrapper name (.ret (.dictRet pd)) d).error = pd.error ∧
    (optimizeTaskWrapper name (.ret (.dictRet pd)) d).details = pd.details :=
  ⟨rfl, rfl, rfl, rfl, rfl, rfl, rfl, rfl⟩

/-! ### C4 — report aggregation -/

lemma aggregateStep_tasks_completed (acc : Report × List String)
    (r : ResultDict) :
    (aggregateStep acc r).1.tasks_completed =
      acc.1.tasks_completed + (if r.success then 1 else 0) := by
  unfold aggregateStep
  cases hw : r.warning <;> by_cases hs : r.success <;>
    simp [hs, hw] <;> split_ifs <;> simp

lemma aggregateStep_tasks_failed (acc : Report × List String)
    (r : ResultDict) :
    (aggregateStep acc r).1.tasks_failed =
      acc.1.tasks_failed + (if r.success then 0 else 1) := by
  unfold aggregateStep
  cases hw : r.warning <;> by_cases hs : r.success <;>
    simp [hs, hw] <;> split_ifs <;> simp

lemma aggregateStep_success (acc : Report × List String) (r : ResultDict) :
    (aggregateStep acc r).1.success = (acc.1.success && r.success) := by
  unfold aggregateStep
  cases hw : r.warning <;> by_cases hs : r.success <;>
    simp [hs, hw] <;> split_ifs <;> simp

lemma aggregateStep_crit (acc : Report × List String) (r : ResultDict) :
    (aggregateStep acc r).2 =
      acc.2 ++ (if !r.success && r.critical.getD false then [r.name] else []) := by
  unfold aggregateStep
  cases hw : r.warning <;> by_cases hs : r.success <;>
    by_cases hc : r.critical.getD false = true <;>
    simp [hs, hw, hc, failureDetailOf] <;> split_ifs <;> simp_all

lemma foldl_agg_tasks_completed (rs : List ResultDict)
    (acc : Report × List String) :
    (rs.foldl aggregateStep acc).1.tasks_completed =
      acc.1.tasks_completed + rs.countP (fun r => r.success) := by
  induction rs generalizing acc with
  | nil => simp
  | cons r rs ih =>
    rw [List.foldl_cons, ih, aggregateStep_tasks_completed, List.countP_cons]
    by_cases hs : r.success <;> (simp [hs]; try omega)

lemma foldl_agg_tasks_failed (rs : List ResultDict)
    (acc : Report × List String) :
    (rs.foldl aggregateStep acc).1.tasks_failed =
      acc.1.tasks_failed + rs.countP (fun r => !r.success) := by
  induction rs generalizing acc with
  | nil => simp
  | cons r rs ih =>
    rw [List.foldl_cons, ih, aggregateStep_tasks_failed, List.countP_cons]
    by_cases hs : r.success <;> (simp [hs]; try omega)

lemma foldl_agg_success (rs : List ResultDict) (acc : Report × List String) :
    (rs.foldl aggregateStep acc).1.success =
      (acc.1.success && rs.all (fun r => r.success)) := by
  induction rs generalizing acc with
  | nil => simp
  | cons r rs ih =>
    rw [List.foldl_cons, ih, aggregateStep_success, List.all_cons]
    by_cases hs : r.success <;> simp [hs]

lemma foldl_agg_crit (rs : List ResultDict) (acc : Report × List String) :
    (rs.foldl aggregateStep acc).2 =
      acc.2 ++ (rs.filter (fun r => !r.success && r.critical.getD false)).map
        ResultDict.name := by
  induction rs generalizing acc with
  | nil => simp
  | cons r rs ih =>
    rw [List.foldl_cons, ih, aggregateStep_crit, List.filter_cons]
    by_cases hb : (!r.success && r.critical.getD false) = true <;>
      simp [hb]

lemma reportWithMessage_success (results : List ResultDict) :
    (reportWithMessage results).success = (aggregatedReport results).success := by
  unfold reportWithMessage
  simp only []
  split <;> rfl

/-- C4: over any result list, `tasks_completed` counts the successes,
`tasks_failed` counts the failures, and the report's `success` flag holds
exactly when no task failed; when every failed result is non-critical the
aggregator returns the report to the caller instead of raising, and if
additionally some task did fail the returned report has `success = false`. -/
theorem reportAggregation_counts (results : List ResultDict) :
    (aggregatedReport results).tasks_completed =
      results.countP (fun r => r.success) ∧
    (aggregatedReport results).tasks_failed =
      results.countP (fun r => !r.success) ∧
    ((aggregatedReport results).success = true ↔
      (aggregatedReport results).tasks_failed = 0) ∧
    ((∀ r ∈ results, r.success = false → r.critical.getD false = false) →
      generateOptimizationReport results = .ok (reportWithMessage results) ∧
      ((∃ r ∈ results, r.success = false) →
        (reportWithMessage results).success = false)) := by
  have hcompleted := foldl_agg_tasks_completed results (initReport results, [])
  have hfailed := foldl_agg_tasks_failed results (initReport results, [])
  have hsuccess := foldl_agg_success results (initReport results, [])
  have hcrit := foldl_agg_crit results (initReport results, [])
  refine ⟨?_, ?_, ?_, ?_⟩
  · simpa [aggregatedReport, initReport] using hcompleted
  · simpa [aggregatedReport, initReport] using hfailed
  · rw [show (aggregatedReport results).success =
        results.all (fun r => r.success) by
          simpa [aggregatedReport, initReport] using hsuccess,
      show (aggregatedReport results).tasks_failed =
        results.countP (fun r => !r.success) by
          simpa [aggregatedReport, initReport] using hfailed]
    rw [List.countP_eq_zero, List.all_eq_true]
    constructor
    · intro h r hr
      have := h r hr
      simpa using this
    · intro h r hr
      have := h r hr
      simpa using this
  · intro h
    have hnil : criticalNames results = [] := by
      rw [criticalNames, hcrit]
      have : results.filter (fun r => !r.success && r.critical.getD false) = [] := by
        rw [List.filter_eq_nil_iff]
        intro r hr
        by_cases hs : r.success
        · simp [hs]
        · simp only [Bool.not_eq_true] at hs
          simp [hs, h r hr hs]
      simp [this]
    constructor
    · rw [generateOptimizationReport, hnil]
      rfl
    · rintro ⟨r, hr, hfail⟩
      rw [reportWithMessage_success]
      have hall : results.all (fun r => r.success) = false := by
        rw [List.all_eq_false]
        exact ⟨r, hr, by simp [hfail]⟩
      rw [show (aggregatedReport results).success =
          results.all (fun r => r.success) by
            simpa [aggregatedReport, initReport] using hsuccess]
      exact hall

/-- C4 witness: one non-critical failure — the aggregator returns (does not
raise) and the returned report is marked unsuccessful. -/
theorem reportAggregation_counts_witness :
    generateOptimizationReport [nonCriticalFailure] =
      .ok (reportWithMessage [nonCriticalFailure]) ∧
    (reportWithMessage [nonCriticalFailure]).success = false := by
  have h := (reportAggregation_counts [nonCriticalFailure]).2.2.2 (by decide)
  exact ⟨h.1, h.2 ⟨nonCriticalFailure, by decide, by decide⟩⟩

/-! ### C5 — resolved task order -/

lemma filter_orderedInsert (t : Task) (p : Int) (l : List Task) :
    (List.orderedInsert taskLe t l).filter (fun x => x.priority == p) =
      (if t.priority == p then [t] else []) ++
        l.filter (fun x => x.priority == p) := by
  induction l with
  | nil =>
    simp only [List.orderedInsert, List.filter, List.append_nil]
    split <;> simp_all
  | cons b l ih =>
    by_cases h : taskLe t b
    · rw [List.orderedInsert, if_pos h, List.filter_cons, List.filter_cons]
      split <;> simp_all
    · rw [List.orderedInsert, if_neg h, List.filter_cons, ih, List.filter_cons]
      have hlt : b.priority < t.priority := lt_of_not_le h
      by_cases hb : (b.priority == p) = true
      · have ht : ¬ (t.priority == p) = true := by
          simp only [beq_iff_eq] at hb ⊢
          omega
        simp [hb, ht]
      · simp [hb]

lemma filter_sortByPriority (l : List Task) (p : Int) :
    (sortByPriority l).filter (fun x => x.priority == p) =
      l.filter (fun x => x.priority == p) := by
  induction l with
  | nil => rfl
  | cons b l ih =>
    rw [sortByPriority, List.insertionSort, filter_orderedInsert,
      List.filter_cons]
    rw [sortByPriority] at ih
    rw [ih]
    by_cases hb : (b.priority == p) = true <;> simp [hb]

/-- C5: for every registry, profile section, OS and implemented-action map,
the resolved task list handed to the executor is sorted by ascending
priority, is a permutation of the pre-sort resolution (which enumerates the
registry in insertion order, being a `filterMap` over it), and — stability
— its restriction to any single priority value is exactly the pre-sort
restriction, i.e. equal-priority tasks appear in registry insertion order. -/
theorem resolvedTasks_sorted_stable (registry : List (String × TaskConfig))
    (profileSection : Option (String → Option String)) (currentOS : String)
    (implemented : List String) :
    List.Sorted taskLe
      (getTasksForProfile registry profileSection currentOS implemented) ∧
    (getTasksForProfile registry profileSection currentOS implemented).Perm
      (tasksToRun registry profileSection currentOS implemented) ∧
    ∀ p : Int,
      (getTasksForProfile registry profileSection currentOS
          implemented).filter (fun t => t.priority == p) =
        (tasksToRun registry profileSection currentOS implemented).filter
          (fun t => t.priority == p) :=
  ⟨List.sorted_insertionSort taskLe _, List.perm_insertionSort taskLe _,
   fun p => filter_sortByPriority _ p⟩

/-! ### C6 — worker-pool sizing -/

/-- C6 counterexample: with `max_threads = 0` configured and 4 CPUs the code
sizes the pool to 1 (the `max(1, ...)` clamp), while the claimed formula
`min(configuredMaxThreads, cpuCount, workerCount)` gives 0 for a run of 3
tasks — and indeed gives at most 0 for every worker count, so no reading of
`workerCount` satisfies the claim. -/
theorem poolSize_formula_counterexample :
    getThreadCount (.set 0) 4 = 1 ∧ specPoolSize 0 4 3 = 0 ∧
    (1 : Int) ≠ 0 := by
  refine ⟨?_, by decide, by decide⟩
  decide

/-- C6 (amended): the worker-pool size is `max(1, min(configuredMaxThreads,
cpuCount))` — a two-way min clamped below by 1; the number of submitted
tasks (`workerCount`) plays no part.  When `max_threads` is absent the
configured value falls back to `max(1, cpuCount - 1)`, and a config read
error yields a pool of 1. -/
theorem poolSize_clamped_two_way_min (c : Int) (cpu : Nat) :
    getThreadCount (.set c) cpu = max 1 (min c.toNat cpu) ∧
    getThreadCount .unset cpu = max 1 (min (max 1 (cpu - 1)) cpu) ∧
    getThreadCount .malformed cpu = 1 := by
  refine ⟨?_, ?_, rfl⟩
  · simp only [getThreadCount]
    omega
  · simp only [getThreadCount]
    omega

/-! ### C7 — memory tier mapping -/

/-- C7: the memory tier is determined by strict-less-than comparison of the
available gigabytes (`bytes / 1024³`) against the ascending thresholds:
below critical gives "critical", else below warning gives "warning", else
"normal"; in particular 1 GB available with the default critical threshold
of 2 GB classifies as "critical". -/
theorem memoryTier_strict_thresholds (bytes : Nat) (cfg : MemCfg) :
    (classifyMemoryState bytes cfg = "critical" ↔
      (bytes : ℚ) < cfg.critical_threshold_gb * 1024 ^ 3) ∧
    (classifyMemoryState bytes cfg = "warning" ↔
      (¬ (bytes : ℚ) < cfg.critical_threshold_gb * 1024 ^ 3) ∧
        (bytes : ℚ) < cfg.warning_threshold_gb * 1024 ^ 3) ∧
    (classifyMemoryState bytes cfg = "normal" ↔
      (¬ (bytes : ℚ) < cfg.critical_threshold_gb * 1024 ^ 3) ∧
        ¬ (bytes : ℚ) < cfg.warning_threshold_gb * 1024 ^ 3) ∧
    classifyMemoryState (1024 ^ 3) defaultMemoryConfig = "critical" := by
  have h30 : (0 : ℚ) < (1024 : ℚ) ^ 3 := by norm_num
  have hc : ((bytes : ℚ) / (1024 : ℚ) ^ 3 < cfg.critical_threshold_gb) ↔
      (bytes : ℚ) < cfg.critical_threshold_gb * 1024 ^ 3 := div_lt_iff₀ h30
  have hw : ((bytes : ℚ) / (1024 : ℚ) ^ 3 < cfg.warning_threshold_gb) ↔
      (bytes : ℚ) < cfg.warning_threshold_gb * 1024 ^ 3 := div_lt_iff₀ h30
  have hne1 : ("warning" : String) ≠ "critical" := by decide
  have hne2 : ("normal" : String) ≠ "critical" := by decide
  have hne3 : ("critical" : String) ≠ "warning" := by decide
  have hne4 : ("normal" : String) ≠ "warning" := by decide
  have hne5 : ("critical" : String) ≠ "normal" := by decide
  have hne6 : ("warning" : String) ≠ "normal" := by decide
  have hlast : classifyMemoryState (1024 ^ 3) defaultMemoryConfig =
      "critical" := by
    unfold classifyMemoryState defaultMemoryConfig
    norm_num
  refine ⟨?_, ?_, ?_, hlast⟩ <;>
    · unfold classifyMemoryState
      simp only [← hc, ← hw]
      by_cases h1 : (bytes : ℚ) / (1024 : ℚ) ^ 3 < cfg.critical_threshold_gb <;>
        by_cases h2 : (bytes : ℚ) / (1024 : ℚ) ^ 3 < cfg.warning_threshold_gb <;>
        simp [h1, h2, hne1, hne2, hne3, hne4, hne5, hne6]

/-! ### C9 — re-entrancy guard -/

/-- C9: calling `optimize_system` while the status is "running" raises
`OptimizationError` immediately — before resolving tasks, sizing the pool
or executing anything (the environment is arbitrary and the produced
execution trace is empty) — and leaves the whole mutable state, in
particular the status and the stored last run result, unchanged. -/
theorem optimize_while_running_raises (st : OptState) (env : RunEnv)
    (h : st.status = "running") :
    optimizeSystem st env =
      (.error (.optimizationError "Optimization is already running."),
       st, []) := by
  simp [optimizeSystem, h]

/-- C9 witness: the guard at a concrete running state and environment. -/
theorem optimize_while_running_raises_witness :
    optimizeSystem runningState noTasksEnv =
      (.error (.optimizationError "Optimization is already running."),
       runningState, []) :=
  optimize_while_running_raises runningState noTasksEnv rfl

/-! ### C10 — empty resolved task list -/

/-- C10: when the resolved task list is empty (and the status guard and
config validation pass), `optimize_system` returns the fixed empty-run
report — `success = true`, zero completed, zero failed, empty failure
details and warnings — sets the status to "completed", and produces no
executor results at all (the trace component is empty, the worker pool is
never reached). -/
theorem emptyTaskList_short_circuit (st : OptState) (env : RunEnv)
    (h1 : ¬ st.status = "running") (h2 : env.configLoaded = true)
    (h3 : getTasksForProfile env.registry env.profileSection env.currentOS
      env.implemented = []) :
    optimizeSystem st env =
      (.ok emptyRunReport,
       { st with status := "completed", currentTask := none }, []) ∧
    emptyRunReport.success = true ∧
    emptyRunReport.tasks_completed = 0 ∧
    emptyRunReport.tasks_failed = 0 ∧
    emptyRunReport.failed_tasks_details = [] ∧
    emptyRunReport.warnings = [] := by
  refine ⟨?_, rfl, rfl, rfl, rfl, rfl⟩
  cases st
  simp [optimizeSystem, h2, h3] at h1 ⊢
  simp [h1]

/-- C10 witness: an idle optimizer over an empty registry. -/
theorem emptyTaskList_short_circuit_witness :
    optimizeSystem idleState noTasksEnv =
      (.ok emptyRunReport,
       { idleState with status := "completed", currentTask := none }, []) ∧
    emptyRunReport.success = true ∧
    emptyRunReport.tasks_completed = 0 ∧
    emptyRunReport.tasks_failed = 0 ∧
    emptyRunReport.failed_tasks_details = [] ∧
    emptyRunReport.warnings = [] :=
  emptyTaskList_short_circuit idleState noTasksEnv (by decide) rfl rfl

/-! ### C1 — critical-failure escalation -/

/-- C1 (code bug evidence): Scenario A run, evaluated on the code model.
The default profile resolves `memory_optimization` (critical) and
`temp_cleanup` (non-critical); `memory_optimization`'s action raises.  The
wrapper's result dicts carry no "critical" key, so
`result.get("critical", False)` is `False` in the aggregator, the
critical-failure list stays empty, and `optimize_system` RETURNS the report
(`runSummary` is `some`, i.e. no error was raised) with `success = false`
and `tasks_failed = 1`, merely setting the status to "failed" — although
the registry marks the failed task critical, contradicting the claim and
the docstrings of `optimize_system` (line 386) and
`_generate_optimization_report` (line 829). -/
theorem criticalException_returns_report :
    runSummary (optimizeSystem idleState scenarioAEnv).1 = some (false, 1) ∧
    (optimizeSystem idleState scenarioAEnv).2.1.status = "failed" ∧
    (getTasksForProfile defaultTasksConfig none "Linux"
        implementedTasks).map (fun t => (t.name, t.critical)) =
      [("memory_optimization", true), ("temp_cleanup", false)] ∧
    ((optimizeSystem idleState scenarioAEnv).2.2).map
        (fun r => (r.name, r.success, r.critical)) =
      [("memory_optimization", false, none), ("temp_cleanup", true, none)] := by
  refine ⟨?_, ?_, ?_, ?_⟩ <;> decide

end PCOptimizer
